import Mathlib

/-!
Account lifecycle of the LMS backend.

A shallow embedding of `server/controller/userController.js`.

* The credential store is a list of `User` records; `findOne`, `findById`,
  `saveDoc`, `insertDoc` and `findByIdAndDelete` embed the Mongoose calls the
  controller makes.
* Every collaborator (store, bcryptjs, cloudinary, fs, mail, token signing) is a
  field of `Env` and may throw; a thrown `Error` is represented by its message.
* A handler returns a `Result`: what it answered (`Outcome`), the store after the
  call and the external effects it performed, in order.
-/

namespace LMS

/-- Avatar sub-document of a user: `{ public_id, secure_url }`. -/
structure Avatar where
  public_id : String
  secure_url : String
deriving DecidableEq

/-- Stored user record of the credential store. -/
structure User where
  id : Nat
  name : String
  email : String
  password : String
  avatar : Avatar
  forgotPasswordToken : Option String
  forgotPasswordExpiry : Option Nat
deriving DecidableEq

/-- In-memory Mongoose document. `password` is `none` when the path was not
selected or was set to `undefined`; `passwordModified` records an assignment
to `user.password` since the document was loaded. -/
structure Doc where
  id : Nat
  name : String
  email : String
  password : Option String
  passwordModified : Bool
  avatar : Avatar
  forgotPasswordToken : Option String
  forgotPasswordExpiry : Option Nat
deriving DecidableEq

/-- Error thrown by `user.validate()`: a Mongoose `ValidationError` carrying the
messages of `error.errors`, or any other error (which has no `errors`). -/
inductive ValidateError where
  | validation (messages : List String)
  | other (message : String)
deriving DecidableEq

/-- External effects of a handler, in the order they happen. -/
inductive Effect where
  | uploaded (path : String) (options : List (String × String))
  | destroyed (public_id : String)
  | removed (path : String)
  | mailed (recipient : String) (subject : String) (message : String)
deriving DecidableEq

/-- Cookie set by `res.cookie('token', value, { httpOnly: true, maxAge })`. -/
structure Cookie where
  value : Option String
  httpOnly : Bool
  maxAge : Nat
deriving DecidableEq

/-- Response body `{ success, message, user? }`. -/
structure Body where
  success : Bool
  message : String
  user : Option Doc
deriving DecidableEq

/-- What a handler did with the request: answered with `res.status(..).json(..)`
(with the cookie it set, if any), delegated to `next(createError(status, message))`,
or let an exception escape, so that the promise it returned rejects. -/
inductive Outcome where
  | json (status : Nat) (body : Body) (cookie : Option Cookie)
  | next (status : Nat) (message : String)
  | rejected (message : String)
deriving DecidableEq

/-- Result of running a handler. -/
structure Result where
  outcome : Outcome
  store : List User
  effects : List Effect
deriving DecidableEq

/-- Collaborators of the controller. Code that is not in the controller file is
a field here: the user model (schema projection, pre-save hook, token methods),
the asset store, the file system, the mail transport and the runtime globals. -/
structure Env where
  /-- Value of `Date.now()`. -/
  now : Nat
  /-- The `n`-th store call of the request throws an error with this message. -/
  dbFault : Nat → Option String
  /-- Whether the default projection of the schema includes `password`
  (false for a path declared `select: false`). -/
  passwordSelected : Bool
  /-- What `save()` stores for a modified `password` path (the pre-save hook). -/
  preSave : String → String
  /-- Schema validation, `user.validate()`. -/
  validate : Doc → Except ValidateError Unit
  /-- Salted hash `bcryptjs.hash(p, 10)`. -/
  hash : String → Except String String
  /-- Check `bcryptjs.compare(p, digest)`. -/
  compare : String → String → Except String Bool
  /-- Digest `crypto.createHash('sha256').update(t).digest('hex')`. -/
  sha256 : String → String
  /-- Signed session token `user.generateToken()`. -/
  generateToken : Nat → Except String String
  /-- Random plaintext reset token drawn by `user.generateResetToken()`. -/
  randomToken : Except String String
  /-- Validity window of a reset token. -/
  resetWindow : Nat
  /-- Upload `v2.uploader.upload(path, options)`. -/
  upload : String → List (String × String) → Except String Avatar
  /-- Deletion `v2.uploader.destroy(public_id, ..)`. -/
  destroy : String → Except String Unit
  /-- Removal `fs.rm(path)`. -/
  rm : String → Except String Unit
  /-- Mail `sendMail(from, to, subject, message)`. -/
  sendMail : String → String → String → Except String Unit
  /-- Function `encodeURI`. -/
  encodeURI : String → String
  /-- Value of `process.env.FRONTEND_URL`. -/
  frontendUrl : String
  /-- Identifiers bound on the global object, with their values. -/
  globals : List (String × String)

/-- JavaScript truthiness of an optional string read from the request:
`undefined` and the empty string are falsy. -/
def truthy? : Option String → Option String
  | some v => if v = "" then none else some v
  | none => none

/-- JavaScript `a || b` on strings. -/
def orElse (a b : String) : String :=
  if a = "" then b else a

/-- Document loaded from a record; the password is present when selected. -/
def toDoc (selectPassword : Bool) (u : User) : Doc :=
  { id := u.id, name := u.name, email := u.email,
    password := if selectPassword then some u.password else none,
    passwordModified := false,
    avatar := u.avatar,
    forgotPasswordToken := u.forgotPasswordToken,
    forgotPasswordExpiry := u.forgotPasswordExpiry }

/-- Query `User.findOne(filter)`, the `n`-th store call of the request: the first
record matching the filter, or an exception. -/
def findOne (env : Env) (n : Nat) (filter : User → Bool) (s : List User) :
    Except String (Option User) :=
  match env.dbFault n with
  | some e => .error e
  | none => .ok (s.find? filter)

/-- Query `User.findById(id)`. -/
def findById (env : Env) (n : Nat) (id : Nat) (s : List User) :
    Except String (Option User) :=
  findOne env n (fun u => u.id == id) s

/-- Record written by `save()` for an existing document: the document's fields,
the password only when it was modified (after the pre-save hook). -/
def writeDoc (env : Env) (d : Doc) (r : User) : User :=
  { r with
    name := d.name
    avatar := d.avatar
    forgotPasswordToken := d.forgotPasswordToken
    forgotPasswordExpiry := d.forgotPasswordExpiry
    password := match d.passwordModified, d.password with
      | true, some p => env.preSave p
      | _, _ => r.password }

/-- Call `user.save()` on a loaded document, the `n`-th store call of the
request: the record with the document's id is rewritten. -/
def saveDoc (env : Env) (n : Nat) (d : Doc) (s : List User) : Except String (List User) :=
  match env.dbFault n with
  | some e => .error e
  | none => .ok (s.map fun r => if r.id = d.id then writeDoc env d r else r)

/-- Filter of `resetPassword`:
`{ forgotPasswordToken: hashedToken, forgotPasswordExpiry: { $gt: Date.now() } }`. -/
def tokenFilter (hashedToken : String) (now : Nat) (u : User) : Bool :=
  u.forgotPasswordToken == some hashedToken &&
    (match u.forgotPasswordExpiry with
     | some e => decide (now < e)
     | none => false)

/-- Call `bcryptjs.hash(password, 10)` on a body field: an `undefined` password
is rejected by the library. -/
def hashField (env : Env) : Option String → Except String String
  | some p => env.hash p
  | none => .error "Illegal arguments: undefined, number"

/-- Request of `POST /reset/:resetToken`. -/
structure ResetPasswordReq where
  resetToken : String
  password : Option String
deriving DecidableEq

/-- Handler `resetPassword`. -/
def resetPassword (env : Env) (s : List User) (req : ResetPasswordReq) : Result :=
  let hashedToken := env.sha256 req.resetToken
  match findOne env 0 (tokenFilter hashedToken env.now) s with
  | .error e => ⟨.next 500 e, s, []⟩
  | .ok none => ⟨.next 400 "Token is invalid or expired. Please try again later.", s, []⟩
  | .ok (some u) =>
    match hashField env req.password with
    | .error e => ⟨.next 500 e, s, []⟩
    | .ok h =>
      let user : Doc :=
        { toDoc env.passwordSelected u with
          password := some h
          passwordModified := true
          forgotPasswordToken := none
          forgotPasswordExpiry := none }
      match saveDoc env 1 user s with
      | .error e => ⟨.next 500 e, s, []⟩
      | .ok s1 =>
        ⟨.json 200 { success := true, message := "Password reset successfully", user := none } none,
          s1, []⟩

/-- Identifier of a document created by `new User(..)`: one that no stored
record carries. -/
def freshId (s : List User) : Nat :=
  (s.map (fun u => u.id)).foldr max 0 + 1

/-- Call `user.save()` on a new document, the `n`-th store call of the request:
a record is appended; every path of a new document counts as modified, so the
password goes through the pre-save hook. -/
def insertDoc (env : Env) (n : Nat) (d : Doc) (password : String) (s : List User) :
    Except String (List User) :=
  match env.dbFault n with
  | some e => .error e
  | none =>
    .ok (s ++ [{ id := d.id, name := d.name, email := d.email,
                 password := env.preSave password, avatar := d.avatar,
                 forgotPasswordToken := d.forgotPasswordToken,
                 forgotPasswordExpiry := d.forgotPasswordExpiry }])

/-- Call `User.findByIdAndDelete(id)`, the `n`-th store call of the request:
the first record with that id is removed and returned. -/
def findByIdAndDelete (env : Env) (n : Nat) (id : Nat) (s : List User) :
    Except String (Option User × List User) :=
  match env.dbFault n with
  | some e => .error e
  | none =>
    match s.find? (fun u => u.id == id) with
    | some u => .ok (some u, s.erase u)
    | none => .ok (none, s)

/-- Evaluation of an identifier that the module does not declare: it is looked
up on the global object and a `ReferenceError` is thrown when it is not bound. -/
def resolveGlobal (env : Env) (ident : String) : Except String String :=
  match env.globals.lookup ident with
  | some v => .ok v
  | none => .error (ident ++ " is not defined")

/-- Cookie options of a session: `{ httpOnly: true, maxAge: 7 * 24 * 60 * 60 * 1000 }`. -/
def sessionCookie (token : String) : Cookie :=
  { value := some token, httpOnly := true, maxAge := 7 * 24 * 60 * 60 * 1000 }

/-- Placeholder avatar address given to every new user. -/
def placeholderUrl : String :=
  "https://cdn.pixabay.com/photo/2015/10/05/22/37/blank-profile-picture-973460_640.png"

/-- Request of `POST /signup`; `file` is `req.file.path` when a file is attached. -/
structure SignupReq where
  name : Option String
  email : Option String
  password : Option String
  file : Option String
deriving DecidableEq

/-- Tail of `signup` from `await user.save()` on. -/
def signupSave (env : Env) (s : List User) (user : Doc) (password : String)
    (effects : List Effect) : Result :=
  match insertDoc env 1 user password s with
  | .error e => ⟨.next 500 e, s, effects⟩
  | .ok s1 =>
    let user : Doc := { user with password := none }
    match env.generateToken user.id with
    | .error e => ⟨.next 500 e, s1, effects⟩
    | .ok token =>
      ⟨.json 201 { success := true, message := "User created successfully", user := some user }
          (some (sessionCookie token)),
        s1, effects⟩

/-- Handler `signup`. -/
def signup (env : Env) (s : List User) (req : SignupReq) : Result :=
  match truthy? req.name, truthy? req.email, truthy? req.password with
  | some name, some email, some password =>
    match findOne env 0 (fun u => u.email == email) s with
    | .error e => ⟨.next 500 e, s, []⟩
    | .ok (some _) =>
      ⟨.json 401 { success := false, message := "Email already exists", user := none } none, s, []⟩
    | .ok none =>
      let user : Doc :=
        { id := freshId s, name := name, email := email, password := some password,
          passwordModified := true,
          avatar := { public_id := email, secure_url := placeholderUrl },
          forgotPasswordToken := none, forgotPasswordExpiry := none }
      match env.validate user with
      | .error (.validation messages) =>
        ⟨.json 400 { success := false, message := ", ".intercalate messages, user := none } none,
          s, []⟩
      | .error (.other _) =>
        -- `Object.values(error.errors)` throws inside the inner catch
        ⟨.next 500 "Cannot convert undefined or null to object", s, []⟩
      | .ok () =>
        match req.file with
        | some path =>
          let options := [("resource_type", "image"), ("folder", "lms"), ("width", "250"),
            ("height", "250"), ("gravity", "faces"), ("crop", "fill")]
          match env.upload path options with
          | .error e => ⟨.next 500 (orElse e "File upload failed, please try again"), s, []⟩
          | .ok result =>
            match env.rm path with
            | .error e =>
              ⟨.next 500 (orElse e "File upload failed, please try again"), s,
                [.uploaded path options]⟩
            | .ok () =>
              signupSave env s { user with avatar := result } password
                [.uploaded path options, .removed path]
        | none => signupSave env s user password []
  | _, _, _ => ⟨.next 401 "All input fields are required", s, []⟩

/-- Request of `POST /login`. -/
structure LoginReq where
  email : Option String
  password : Option String
deriving DecidableEq

/-- Handler `login`. -/
def login (env : Env) (s : List User) (req : LoginReq) : Result :=
  match truthy? req.email, truthy? req.password with
  | some email, some password =>
    match findOne env 0 (fun u => u.email == email) s with
    | .error e => ⟨.next 500 e, s, []⟩
    | .ok none => ⟨.next 404 "User not found", s, []⟩
    | .ok (some u) =>
      let user := toDoc true u
      match env.compare password u.password with
      | .error e => ⟨.next 500 e, s, []⟩
      | .ok false => ⟨.next 401 "Invalid email or password", s, []⟩
      | .ok true =>
        match env.generateToken user.id with
        | .error e => ⟨.next 500 e, s, []⟩
        | .ok token =>
          let user : Doc := { user with password := none }
          ⟨.json 200 { success := true, message := "Welcome back " ++ user.name,
                       user := some user }
              (some (sessionCookie token)),
            s, []⟩
  | _, _ => ⟨.next 401 "All input fields are required", s, []⟩

/-- Handler `logout`. -/
def logout (s : List User) : Result :=
  ⟨.json 200 { success := true, message := "User logged out successfully", user := none }
      (some { value := none, httpOnly := true, maxAge := 0 }),
    s, []⟩

/-- Handler `getProfile`; `userId` is `req.user.id`. -/
def getProfile (env : Env) (s : List User) (userId : Nat) : Result :=
  match findById env 0 userId s with
  | .error e => ⟨.next 500 e, s, []⟩
  | .ok none => ⟨.next 404 "User not found", s, []⟩
  | .ok (some u) =>
    let user := toDoc env.passwordSelected u
    ⟨.json 200 { success := true, message := "User details", user := some user } none, s, []⟩

/-- Modelled from the spec: the method `user.generateResetToken()` of the user
model, which is not part of the controller file. It draws a random plaintext,
stores its deterministic hash and an expiry one validity window ahead on the
document, and returns the plaintext. -/
def generateResetToken (env : Env) (user : Doc) : Except String (String × Doc) :=
  match env.randomToken with
  | .error e => .error e
  | .ok plaintext =>
    .ok (plaintext,
      { user with
        forgotPasswordToken := some (env.sha256 plaintext)
        forgotPasswordExpiry := some (env.now + env.resetWindow) })

/-- Body of the reset mail built by `forgotPassword` around the reset link. -/
def resetMessage (env : Env) (resetToken : String) : String :=
  let resetPasswordUrl := env.frontendUrl ++ "/reset-password/" ++ resetToken
  "You can reset your password by clicking <a href=\"" ++
    env.encodeURI resetPasswordUrl ++
    "\" target=\"_blank\">Reset your password</a>. If the above link does not work, " ++
    "copy-paste this link in a new tab: " ++ env.encodeURI resetPasswordUrl ++
    ". If you did not request this, kindly ignore."

/-- Request of `POST /forgot-password`. -/
structure ForgotPasswordReq where
  email : Option String
deriving DecidableEq

/-- Handler `forgotPassword`. Only the mail is sent inside a `try`; an exception
of any other call leaves the handler. -/
def forgotPassword (env : Env) (s : List User) (req : ForgotPasswordReq) : Result :=
  match truthy? req.email with
  | none => ⟨.next 400 "Email is required", s, []⟩
  | some email =>
    match findOne env 0 (fun u => u.email == email) s with
    | .error e => ⟨.rejected e, s, []⟩
    | .ok none => ⟨.next 404 "User not found", s, []⟩
    | .ok (some u) =>
      match generateResetToken env (toDoc env.passwordSelected u) with
      | .error e => ⟨.rejected e, s, []⟩
      | .ok (resetToken, user) =>
        match saveDoc env 1 user s with
        | .error e => ⟨.rejected e, s, []⟩
        | .ok s1 =>
          let subject := "Reset Password"
          let message := resetMessage env resetToken
          match env.sendMail email subject message with
          | .ok () =>
            ⟨.json 200 { success := true,
                         message := "Reset password email has been sent to " ++ email ++
                           " successfully",
                         user := none } none,
              s1, [.mailed email subject message]⟩
          | .error _ =>
            let user : Doc :=
              { user with forgotPasswordToken := none, forgotPasswordExpiry := none }
            match saveDoc env 2 user s1 with
            | .error e => ⟨.rejected e, s1, []⟩
            | .ok s2 => ⟨.next 500 "Failed to send reset email. Please try again.", s2, []⟩

/-- Request of `PUT /change-password`; `userId` is `req.user.id`. -/
structure ChangePasswordReq where
  userId : Nat
  oldPassword : Option String
  newPassword : Option String
deriving DecidableEq

/-- Handler `changePassword`. -/
def changePassword (env : Env) (s : List User) (req : ChangePasswordReq) : Result :=
  match truthy? req.oldPassword, truthy? req.newPassword with
  | some oldPassword, some newPassword =>
    match findById env 0 req.userId s with
    | .error e => ⟨.next 500 e, s, []⟩
    | .ok none => ⟨.next 404 "User not found", s, []⟩
    | .ok (some u) =>
      match env.compare oldPassword u.password with
      | .error e => ⟨.next 500 e, s, []⟩
      | .ok false => ⟨.next 401 "Invalid old password", s, []⟩
      | .ok true =>
        match env.hash newPassword with
        | .error e => ⟨.next 500 e, s, []⟩
        | .ok h =>
          let user : Doc := { toDoc true u with password := some h, passwordModified := true }
          match saveDoc env 1 user s with
          | .error e => ⟨.next 500 e, s, []⟩
          | .ok s1 =>
            ⟨.json 200 { success := true, message := "Password changed successfully",
                         user := none } none,
              s1, []⟩
  | _, _ => ⟨.next 400 "All fields are required", s, []⟩

/-- Request of `PUT /update`; `userId` is `req.user.id`, `file` is `req.file.path`. -/
structure UpdateProfileReq where
  userId : Nat
  name : Option String
  file : Option String
deriving DecidableEq

/-- Tail of `updateProfile` from `await user.save()` on. -/
def updateSave (env : Env) (s : List User) (user : Doc) (effects : List Effect) : Result :=
  match saveDoc env 1 user s with
  | .error e => ⟨.next 500 e, s, effects⟩
  | .ok s1 =>
    ⟨.json 200 { success := true, message := "Profile updated successfully", user := none } none,
      s1, effects⟩

/-- Removal of the old avatar in `updateProfile`: `destroy` is called when
`user.avatar.public_id` is truthy. -/
def destroyOld (env : Env) (public_id : String) : Except String (List Effect) :=
  if public_id = "" then .ok []
  else
    match env.destroy public_id with
    | .error e => .error e
    | .ok () => .ok [.destroyed public_id]

/-- Handler `updateProfile`. The options object of the upload ends in the
shorthand property `server`, an identifier the module does not declare: it is
evaluated before the upload is called. -/
def updateProfile (env : Env) (s : List User) (req : UpdateProfileReq) : Result :=
  match findById env 0 req.userId s with
  | .error e => ⟨.next 500 e, s, []⟩
  | .ok none => ⟨.next 404 "User not found", s, []⟩
  | .ok (some u) =>
    let user := toDoc env.passwordSelected u
    let user : Doc :=
      match truthy? req.name with
      | some name => { user with name := name }
      | none => user
    match req.file with
    | none => updateSave env s user []
    | some path =>
      match destroyOld env user.avatar.public_id with
      | .error e => ⟨.next 500 e, s, []⟩
      | .ok destroyed =>
        match resolveGlobal env "server" with
        | .error e =>
          ⟨.next 500 (orElse e "File upload failed, please try again"), s, destroyed⟩
        | .ok server =>
          let options := [("resource_type", "image"), ("folder", "lms"), ("width", "250"),
            ("height", "250"), ("gravity", "faces"), ("server", server)]
          match env.upload path options with
          | .error e =>
            ⟨.next 500 (orElse e "File upload failed, please try again"), s, destroyed⟩
          | .ok result =>
            match env.rm path with
            | .error e =>
              ⟨.next 500 (orElse e "File upload failed, please try again"), s,
                destroyed ++ [.uploaded path options]⟩
            | .ok () =>
              updateSave env s { user with avatar := result }
                (destroyed ++ [.uploaded path options, .removed path])

/-- Handler `deleteProfile`; `userId` is `req.user.id`. -/
def deleteProfile (env : Env) (s : List User) (userId : Nat) : Result :=
  match findByIdAndDelete env 0 userId s with
  | .error e => ⟨.next 500 e, s, []⟩
  | .ok (none, _) => ⟨.next 400 "user does not exists", s, []⟩
  | .ok (some u, s1) =>
    match env.destroy u.avatar.public_id with
    | .error e => ⟨.next 500 e, s1, []⟩
    | .ok () =>
      ⟨.json 200 { success := true, message := "profile deleted successfully", user := none } none,
        s1, [.destroyed u.avatar.public_id]⟩

/-- Status code carried by an outcome, if the handler produced one. -/
def Outcome.status? : Outcome → Option Nat
  | .json status _ _ => some status
  | .next status _ => some status
  | .rejected _ => none

/-! ## Concrete collaborators and stores used to instantiate the theorems -/

/-- Collaborators that never fail, with a password path declared `select: false`
and a pre-save hook that hashes a modified password. -/
def hashingEnv : Env :=
  { now := 1000
    dbFault := fun _ => none
    passwordSelected := false
    preSave := fun p => "h(" ++ p ++ ")"
    validate := fun _ => .ok ()
    hash := fun p => .ok ("h(" ++ p ++ ")")
    compare := fun p digest => .ok (digest == "h(" ++ p ++ ")")
    sha256 := fun t => "sha(" ++ t ++ ")"
    generateToken := fun _ => .ok "jwt"
    randomToken := .ok "r4nd0m"
    resetWindow := 900
    upload := fun path _ => .ok { public_id := "lms/" ++ path, secure_url := "https://cdn/" ++ path }
    destroy := fun _ => .ok ()
    rm := fun _ => .ok ()
    sendMail := fun _ _ _ => .ok ()
    encodeURI := fun u => u
    frontendUrl := "https://lms"
    globals := [] }

/-- The collaborators of `hashingEnv` with a `save()` that stores a modified
password as it is given (no pre-save hook). -/
def plainEnv : Env :=
  { hashingEnv with preSave := fun p => p }

/-- The collaborators of `hashingEnv` with a store whose every call throws. -/
def storeDownEnv : Env :=
  { hashingEnv with dbFault := fun _ => some "connection lost" }

/-- The collaborators of `hashingEnv` with a mail transport that throws. -/
def mailDownEnv : Env :=
  { hashingEnv with sendMail := fun _ _ _ => .error "SMTP unreachable" }

/-- The collaborators of `mailDownEnv` with a store whose third call of a
request throws: the lookup and the first save return, the save after them does
not. -/
def mailDownSaveDownEnv : Env :=
  { mailDownEnv with dbFault := fun n => if n = 2 then some "connection lost" else none }

/-- The collaborators of `hashingEnv` with an asset store whose upload throws. -/
def uploadDownEnv : Env :=
  { hashingEnv with upload := fun _ _ => .error "upload timed out" }

/-- The collaborators of `uploadDownEnv` with a global object on which `server`
is bound. -/
def uploadDownServerEnv : Env :=
  { uploadDownEnv with globals := [("server", "http")] }

/-- The collaborators of `hashingEnv` with a global object on which `server` is
bound. -/
def serverEnv : Env :=
  { hashingEnv with globals := [("server", "http")] }

/-- The collaborators of `hashingEnv` with a schema whose default projection
includes the password. -/
def selectingEnv : Env :=
  { hashingEnv with passwordSelected := true }

/-- Signup request of the scenario of the specification. -/
def anaSignup : SignupReq :=
  { name := some "Ana", email := some "ana@x.com", password := some "secret1", file := none }

/-- Store after `signup` of `anaSignup` on the empty store. -/
def afterSignup (env : Env) : List User :=
  (signup env [] anaSignup).store

/-- Store after a following `forgotPassword` for the same email. -/
def afterForgot (env : Env) : List User :=
  (forgotPassword env (afterSignup env) { email := some "ana@x.com" }).store

/-- Store after a following `resetPassword` with the mailed plaintext token and
the new password `secret2`. -/
def afterReset (env : Env) : List User :=
  (resetPassword env (afterForgot env) { resetToken := "r4nd0m", password := some "secret2" }).store

/-- A user with an outstanding reset token for the plaintext `r4nd0m`. -/
def ana : User :=
  { id := 1, name := "Ana", email := "ana@x.com", password := "h(secret1)",
    avatar := { public_id := "lms/ana", secure_url := "https://cdn/ana" },
    forgotPasswordToken := some "sha(r4nd0m)", forgotPasswordExpiry := some 1900 }

/-- A second user who holds the same reset-token hash as `ana`. -/
def bob : User :=
  { id := 2, name := "Bob", email := "bob@x.com", password := "h(hunter2)",
    avatar := { public_id := "bob@x.com", secure_url := placeholderUrl },
    forgotPasswordToken := some "sha(r4nd0m)", forgotPasswordExpiry := some 1900 }

/-! ## Lemmas on the store -/

theorem tokenFilter_iff (h : String) (now : Nat) (u : User) :
    tokenFilter h now u = true ↔
      u.forgotPasswordToken = some h ∧ ∃ e, u.forgotPasswordExpiry = some e ∧ now < e := by
  unfold tokenFilter
  cases he : u.forgotPasswordExpiry <;> simp

theorem findOne_ok (env : Env) (n : Nat) (filter : User → Bool) (s : List User)
    (hdb : env.dbFault n = none) : findOne env n filter s = .ok (s.find? filter) := by
  simp [findOne, hdb]

theorem saveDoc_ok (env : Env) (n : Nat) (d : Doc) (s : List User)
    (hdb : env.dbFault n = none) :
    saveDoc env n d s = .ok (s.map fun r => if r.id = d.id then writeDoc env d r else r) := by
  simp [saveDoc, hdb]

/-! ## Reset tokens -/

/-- C2: a reset token past its expiry is rejected. When the store lookup
returns and every user holding the hash of the token has an expiry at or before
now, `resetPassword` answers the invalid-or-expired error (400) and leaves the
store unchanged; and whenever `resetPassword` succeeds, some user holds the hash
of the token with an expiry strictly after now. -/
theorem resetPassword_expired_rejected (env : Env) (s : List User) (req : ResetPasswordReq)
    (hdb : env.dbFault 0 = none) :
    ((∀ u ∈ s, u.forgotPasswordToken = some (env.sha256 req.resetToken) →
        ∀ e, u.forgotPasswordExpiry = some e → e ≤ env.now) →
      resetPassword env s req =
        ⟨.next 400 "Token is invalid or expired. Please try again later.", s, []⟩) ∧
    (∀ body cookie, (resetPassword env s req).outcome = .json 200 body cookie →
      ∃ u ∈ s, u.forgotPasswordToken = some (env.sha256 req.resetToken) ∧
        ∃ e, u.forgotPasswordExpiry = some e ∧ env.now < e) := by
  constructor
  · intro hexp
    have hnone : s.find? (tokenFilter (env.sha256 req.resetToken) env.now) = none := by
      rw [List.find?_eq_none]
      intro u hu hf
      rw [tokenFilter_iff] at hf
      obtain ⟨ht, e, he, hlt⟩ := hf
      have := hexp u hu ht e he
      omega
    simp [resetPassword, findOne_ok _ _ _ _ hdb, hnone]
  · intro body cookie hok
    cases hfind : s.find? (tokenFilter (env.sha256 req.resetToken) env.now) with
    | none => simp [resetPassword, findOne_ok _ _ _ _ hdb, hfind] at hok
    | some u =>
      have hmem := List.mem_of_find?_eq_some hfind
      have hf := List.find?_some hfind
      rw [tokenFilter_iff] at hf
      exact ⟨u, hmem, hf⟩

/-- Witness of C2: at time 1000 the token of `ana` with expiry 1000 is rejected. -/
theorem resetPassword_expired_rejected_witness :
    resetPassword hashingEnv [{ ana with forgotPasswordExpiry := some 1000 }]
        ⟨"r4nd0m", some "secret2"⟩ =
      ⟨.next 400 "Token is invalid or expired. Please try again later.",
        [{ ana with forgotPasswordExpiry := some 1000 }], []⟩ :=
  (resetPassword_expired_rejected hashingEnv [{ ana with forgotPasswordExpiry := some 1000 }]
    ⟨"r4nd0m", some "secret2"⟩ rfl).1 (by decide)

theorem resetPassword_success (env : Env) (s : List User) (req : ResetPasswordReq)
    (body : Body) (cookie : Option Cookie)
    (hok : (resetPassword env s req).outcome = .json 200 body cookie) :
    ∃ u h, s.find? (tokenFilter (env.sha256 req.resetToken) env.now) = some u ∧
      (resetPassword env s req).store =
        s.map (fun r => if r.id = u.id then
          writeDoc env { toDoc env.passwordSelected u with
            password := some h
            passwordModified := true
            forgotPasswordToken := none
            forgotPasswordExpiry := none } r else r) := by
  unfold resetPassword findOne saveDoc at *
  cases h0 : env.dbFault 0 with
  | some e => simp [h0] at hok
  | none =>
    cases hfind : s.find? (tokenFilter (env.sha256 req.resetToken) env.now) with
    | none => simp [h0, hfind] at hok
    | some u =>
      cases hh : hashField env req.password with
      | error e => simp [h0, hfind, hh] at hok
      | ok h =>
        cases h1 : env.dbFault 1 with
        | some e => simp [h0, hfind, hh, h1, toDoc] at hok
        | none =>
          refine ⟨u, h, rfl, ?_⟩
          simp [h0, hfind, hh, h1, toDoc]

/-- C1 (as stated) fails: `ana` and `bob` hold the same reset-token hash. The
first `resetPassword` with the plaintext succeeds on `ana`, and a second one
with the same plaintext on the resulting store succeeds again, on `bob`, whose
stored password it replaces. -/
theorem resetPassword_reuse_counterexample :
    resetPassword hashingEnv [ana, bob] ⟨"r4nd0m", some "secret2"⟩ =
      ⟨.json 200 { success := true, message := "Password reset successfully", user := none } none,
        [{ ana with password := "h(h(secret2))", forgotPasswordToken := none,
                    forgotPasswordExpiry := none }, bob], []⟩ ∧
    resetPassword hashingEnv
        [{ ana with password := "h(h(secret2))", forgotPasswordToken := none,
                    forgotPasswordExpiry := none }, bob] ⟨"r4nd0m", some "secret3"⟩ =
      ⟨.json 200 { success := true, message := "Password reset successfully", user := none } none,
        [{ ana with password := "h(h(secret2))", forgotPasswordToken := none,
                    forgotPasswordExpiry := none },
         { bob with password := "h(h(secret3))", forgotPasswordToken := none,
                    forgotPasswordExpiry := none }], []⟩ := by
  constructor <;> decide

/-- C1 (amended): a reset token is single-use when only one user holds its
hash. If no two users of different id hold the hash of the token and
`resetPassword` succeeds, then a second `resetPassword` with the same plaintext
on the resulting store, at any time and with any password, answers the
invalid-or-expired error (400) and leaves that store unchanged, provided the
store lookup returns. -/
theorem resetPassword_single_use (env env2 : Env) (s : List User)
    (req req2 : ResetPasswordReq) (body : Body) (cookie : Option Cookie)
    (hsha : env2.sha256 = env.sha256) (htok : req2.resetToken = req.resetToken)
    (hdb : env2.dbFault 0 = none)
    (huniq : ∀ u ∈ s, ∀ v ∈ s,
      u.forgotPasswordToken = some (env.sha256 req.resetToken) →
      v.forgotPasswordToken = some (env.sha256 req.resetToken) → u.id = v.id)
    (hok : (resetPassword env s req).outcome = .json 200 body cookie) :
    resetPassword env2 (resetPassword env s req).store req2 =
      ⟨.next 400 "Token is invalid or expired. Please try again later.",
        (resetPassword env s req).store, []⟩ := by
  obtain ⟨u, h, hfind, hstore⟩ := resetPassword_success env s req body cookie hok
  have hu := List.mem_of_find?_eq_some hfind
  have hut := ((tokenFilter_iff _ _ _).1 (List.find?_some hfind)).1
  have hnone : (resetPassword env s req).store.find?
      (tokenFilter (env2.sha256 req2.resetToken) env2.now) = none := by
    rw [List.find?_eq_none, hstore, hsha, htok]
    intro x hx hf
    rw [List.mem_map] at hx
    obtain ⟨r, hr, rfl⟩ := hx
    rw [tokenFilter_iff] at hf
    by_cases hid : r.id = u.id
    · simp [hid, writeDoc] at hf
    · simp only [hid, if_false] at hf
      exact hid (huniq r hr u hu hf.1 hut)
  generalize (resetPassword env s req).store = s1 at *
  simp [resetPassword, findOne_ok _ _ _ _ hdb, hnone]

/-- Witness of C1 (amended): `ana` alone holds the token; after one reset the
same plaintext is refused. -/
theorem resetPassword_single_use_witness :
    resetPassword hashingEnv
        (resetPassword hashingEnv [ana] ⟨"r4nd0m", some "secret2"⟩).store
        ⟨"r4nd0m", some "secret3"⟩ =
      ⟨.next 400 "Token is invalid or expired. Please try again later.",
        (resetPassword hashingEnv [ana] ⟨"r4nd0m", some "secret2"⟩).store, []⟩ :=
  resetPassword_single_use hashingEnv hashingEnv [ana] ⟨"r4nd0m", some "secret2"⟩
    ⟨"r4nd0m", some "secret3"⟩
    { success := true, message := "Password reset successfully", user := none } none
    rfl rfl rfl (by decide) (by decide)

/-! ## Change of password -/

/-- C3: for an existing authenticated user and non-empty old and new passwords,
when the old password does not verify against the stored hash, `changePassword`
answers Unauthorized (401) and the whole store, the password hash included, is
unchanged. -/
theorem changePassword_wrong_old (env : Env) (s : List User) (req : ChangePasswordReq)
    (u : User) (oldPassword newPassword : String)
    (hold : req.oldPassword = some oldPassword) (hold0 : oldPassword ≠ "")
    (hnew : req.newPassword = some newPassword) (hnew0 : newPassword ≠ "")
    (hfind : findById env 0 req.userId s = .ok (some u))
    (hcmp : env.compare oldPassword u.password = .ok false) :
    changePassword env s req = ⟨.next 401 "Invalid old password", s, []⟩ := by
  simp [changePassword, truthy?, hold, hold0, hnew, hnew0, hfind, hcmp]

/-- Witness of C3: `ana` gives a wrong old password. -/
theorem changePassword_wrong_old_witness :
    changePassword hashingEnv [ana, bob] ⟨1, some "wrong", some "secret9"⟩ =
      ⟨.next 401 "Invalid old password", [ana, bob], []⟩ :=
  changePassword_wrong_old hashingEnv [ana, bob] ⟨1, some "wrong", some "secret9"⟩ ana
    "wrong" "secret9" rfl (by decide) rfl (by decide) rfl rfl

/-! ## Signup -/

/-- C4: a signup with non-empty name, email and password whose email is already
registered answers the email-exists failure (the Conflict of the specification,
sent with status 401), creates no record (the store is unchanged), sets no
cookie and performs no external effect, provided the store lookup returns. -/
theorem signup_existing_email (env : Env) (s : List User) (req : SignupReq)
    (name email password : String)
    (hname : req.name = some name) (hname0 : name ≠ "")
    (hemail : req.email = some email) (hemail0 : email ≠ "")
    (hpassword : req.password = some password) (hpassword0 : password ≠ "")
    (hdb : env.dbFault 0 = none)
    (hreg : ∃ u ∈ s, u.email = email) :
    signup env s req =
      ⟨.json 401 { success := false, message := "Email already exists", user := none } none,
        s, []⟩ := by
  obtain ⟨u, hu, hue⟩ := hreg
  cases hfind : s.find? (fun u => u.email == email) with
  | none =>
    rw [List.find?_eq_none] at hfind
    exact absurd (by simpa using hue) (hfind u hu)
  | some v =>
    simp [signup, truthy?, hname, hname0, hemail, hemail0, hpassword, hpassword0,
      findOne_ok _ _ _ _ hdb, hfind]

/-- Witness of C4: a second signup with the email of `ana`. -/
theorem signup_existing_email_witness :
    signup hashingEnv [ana] ⟨some "Ana B", some "ana@x.com", some "secret7", none⟩ =
      ⟨.json 401 { success := false, message := "Email already exists", user := none } none,
        [ana], []⟩ :=
  signup_existing_email hashingEnv [ana] ⟨some "Ana B", some "ana@x.com", some "secret7", none⟩
    "Ana B" "ana@x.com" "secret7" rfl (by decide) rfl (by decide) rfl (by decide) rfl
    ⟨ana, by decide, rfl⟩

/-! ## Login after a reset -/

theorem hashingEnv_compare_hash (p : String) :
    hashingEnv.compare p ("h(" ++ p ++ ")") = .ok true := by
  simp [hashingEnv]

theorem hashingEnv_compare_other (p q : String) (hne : q ≠ p) :
    hashingEnv.compare q ("h(" ++ p ++ ")") = .ok false := by
  have hinj : ("h(" ++ p ++ ")" : String) ≠ "h(" ++ q ++ ")" := by
    intro h
    apply hne
    have hd := congrArg String.data h
    simp only [String.data_append, List.append_cancel_left_eq, List.append_cancel_right_eq] at hd
    exact (String.ext hd).symm
  simp [hashingEnv, hinj]

/-- C5 fails on the code under either behaviour of `save()` on the password.
With a pre-save hook that hashes a modified password, signup, login with
`secret1`, `forgotPassword` and `resetPassword` to `secret2` all succeed and
`secret1` is then refused, but login with `secret2` is refused as well: the
handler hashed the password before the hook hashed it again. With a `save()`
that stores the password as given, login with `secret1` is refused right after
the signup, which saved the plaintext. -/
theorem login_after_reset_diverges :
    ((signup hashingEnv [] anaSignup).outcome.status? = some 201 ∧
      (login hashingEnv (afterSignup hashingEnv)
        { email := some "ana@x.com", password := some "secret1" }).outcome.status? = some 200 ∧
      (forgotPassword hashingEnv (afterSignup hashingEnv)
        { email := some "ana@x.com" }).outcome.status? = some 200 ∧
      (resetPassword hashingEnv (afterForgot hashingEnv)
        { resetToken := "r4nd0m", password := some "secret2" }).outcome.status? = some 200 ∧
      (login hashingEnv (afterReset hashingEnv)
        { email := some "ana@x.com", password := some "secret1" }).outcome =
          .next 401 "Invalid email or password" ∧
      (login hashingEnv (afterReset hashingEnv)
        { email := some "ana@x.com", password := some "secret2" }).outcome =
          .next 401 "Invalid email or password" ∧
      (afterReset hashingEnv).map (fun u => u.password) = ["h(h(secret2))"]) ∧
    ((signup plainEnv [] anaSignup).outcome.status? = some 201 ∧
      (afterSignup plainEnv).map (fun u => u.password) = ["secret1"] ∧
      (login plainEnv (afterSignup plainEnv)
        { email := some "ana@x.com", password := some "secret1" }).outcome =
          .next 401 "Invalid email or password") := by
  decide

/-! ## Forgotten password -/

theorem resetPassword_store_cases (env : Env) (s : List User) (req : ResetPasswordReq) :
    (resetPassword env s req).store = s ∨
    ∃ u h, s.find? (tokenFilter (env.sha256 req.resetToken) env.now) = some u ∧
      (resetPassword env s req).store =
        s.map (fun r => if r.id = u.id then
          writeDoc env { toDoc env.passwordSelected u with
            password := some h
            passwordModified := true
            forgotPasswordToken := none
            forgotPasswordExpiry := none } r else r) := by
  unfold resetPassword findOne saveDoc
  cases h0 : env.dbFault 0 with
  | some e => simp [h0]
  | none =>
    cases hfind : s.find? (tokenFilter (env.sha256 req.resetToken) env.now) with
    | none => simp [h0, hfind]
    | some u =>
      cases hh : hashField env req.password with
      | error e => simp [h0, hfind, hh]
      | ok h =>
        cases h1 : env.dbFault 1 with
        | some e => simp [h0, hfind, hh, h1]
        | none => exact Or.inr ⟨u, h, rfl, by simp [h0, hfind, hh, h1, toDoc]⟩

/-- C6 (as stated) fails: the mail transport is down and the save of the catch
block throws. `forgotPassword` then answers nothing (the exception leaves the
handler), the token written before the mail stays on the record, and a
following `resetPassword` with the plaintext succeeds. -/
theorem forgotPassword_compensation_counterexample :
    forgotPassword mailDownSaveDownEnv
        [{ ana with forgotPasswordToken := none, forgotPasswordExpiry := none }]
        { email := some "ana@x.com" } =
      ⟨.rejected "connection lost", [ana], []⟩ ∧
    ana.forgotPasswordToken = some "sha(r4nd0m)" ∧
    ana.forgotPasswordExpiry = some 1900 ∧
    resetPassword hashingEnv [ana] { resetToken := "r4nd0m", password := some "secret2" } =
      ⟨.json 200 { success := true, message := "Password reset successfully", user := none } none,
        [{ ana with password := "h(h(secret2))", forgotPasswordToken := none,
                    forgotPasswordExpiry := none }], []⟩ := by
  decide

/-- C6 (amended): when the user of the given email is found, the token is
generated and saved, sending the reset mail fails and the compensating save of
the catch block returns, `forgotPassword` answers the mail-failure error (500)
and the record of that user carries neither `forgotPasswordToken` nor
`forgotPasswordExpiry`. The lookup of `resetPassword` then matches that record
for no token hash at no time, and every `resetPassword` on the resulting store
leaves it as it is. -/
theorem forgotPassword_mail_failure (env : Env) (s : List User) (req : ForgotPasswordReq)
    (email : String) (u : User) (plaintext e : String)
    (hemail : req.email = some email) (hemail0 : email ≠ "")
    (hfind : findOne env 0 (fun v => v.email == email) s = .ok (some u))
    (htoken : env.randomToken = .ok plaintext)
    (hsave1 : env.dbFault 1 = none)
    (hmail : env.sendMail email "Reset Password" (resetMessage env plaintext) = .error e)
    (hsave2 : env.dbFault 2 = none) :
    (forgotPassword env s req).outcome =
        .next 500 "Failed to send reset email. Please try again." ∧
    (∃ v ∈ (forgotPassword env s req).store, v.id = u.id) ∧
    (∀ v ∈ (forgotPassword env s req).store, v.id = u.id →
      v.forgotPasswordToken = none ∧ v.forgotPasswordExpiry = none ∧
      (∀ h now, tokenFilter h now v = false) ∧
      (∀ env2 req2, v ∈ (resetPassword env2 (forgotPassword env s req).store req2).store)) := by
  have hstore : (forgotPassword env s req).store =
      (s.map fun r => if r.id = u.id then
        writeDoc env { toDoc env.passwordSelected u with
          forgotPasswordToken := some (env.sha256 plaintext)
          forgotPasswordExpiry := some (env.now + env.resetWindow) } r else r).map
        fun r => if r.id = u.id then
          writeDoc env { toDoc env.passwordSelected u with
            forgotPasswordToken := none
            forgotPasswordExpiry := none } r else r := by
    simp [forgotPassword, truthy?, hemail, hemail0, hfind, generateResetToken, htoken,
      saveDoc_ok _ _ _ _ hsave1, saveDoc_ok _ _ _ _ hsave2, hmail, toDoc]
  have hcleared : ∀ v ∈ (forgotPassword env s req).store, v.id = u.id →
      v.forgotPasswordToken = none ∧ v.forgotPasswordExpiry = none := by
    intro v hv hid
    rw [hstore, List.mem_map] at hv
    obtain ⟨r, _, rfl⟩ := hv
    by_cases hr : r.id = u.id
    · simp [hr, writeDoc, toDoc]
    · simp only [hr, if_false] at hid
  refine ⟨?_, ?_, ?_⟩
  · simp [forgotPassword, truthy?, hemail, hemail0, hfind, generateResetToken, htoken,
      saveDoc_ok _ _ _ _ hsave1, saveDoc_ok _ _ _ _ hsave2, hmail]
  · have hu : u ∈ s := by
      unfold findOne at hfind
      cases h0 : env.dbFault 0 with
      | some e0 => simp [h0] at hfind
      | none =>
        simp only [h0, Except.ok.injEq] at hfind
        exact List.mem_of_find?_eq_some hfind
    rw [hstore]
    refine ⟨_, List.mem_map_of_mem _ (List.mem_map_of_mem _ hu), ?_⟩
    simp [writeDoc]
  · intro v hv hid
    obtain ⟨ht, he⟩ := hcleared v hv hid
    have hfilter : ∀ h now, tokenFilter h now v = false := by
      intro h now
      simp [tokenFilter, ht]
    refine ⟨ht, he, hfilter, ?_⟩
    intro env2 req2
    rcases resetPassword_store_cases env2 (forgotPassword env s req).store req2 with h | h
    · rw [h]; exact hv
    · obtain ⟨w, h, hw, hst⟩ := h
      rw [hst, List.mem_map]
      refine ⟨v, hv, ?_⟩
      have hwf := List.find?_some hw
      have hne : v.id ≠ w.id := by
        intro hvw
        have hwc := hcleared w (List.mem_of_find?_eq_some hw) (hvw ▸ hid)
        simp [tokenFilter, hwc.1] at hwf
      simp [hne]

/-- Witness of C6 (amended): the mail transport is down when `ana` asks for a
reset and the store keeps answering. -/
theorem forgotPassword_mail_failure_witness :
    (forgotPassword mailDownEnv [ana, bob] { email := some "ana@x.com" }).outcome =
        .next 500 "Failed to send reset email. Please try again." ∧
    (forgotPassword mailDownEnv [ana, bob] { email := some "ana@x.com" }).store =
        [{ ana with forgotPasswordToken := none, forgotPasswordExpiry := none }, bob] :=
  ⟨(forgotPassword_mail_failure mailDownEnv [ana, bob] { email := some "ana@x.com" }
      "ana@x.com" ana "r4nd0m" "SMTP unreachable" rfl (by decide) rfl rfl rfl rfl rfl).1,
    by decide⟩

/-! ## Failures of collaborators -/

/-- C7 fails for `forgotPassword`: its store lookup is not inside a `try`, so
when the lookup throws the handler answers nothing and the exception leaves it
(the promise it returned rejects). -/
theorem forgotPassword_lookup_throw_escapes :
    forgotPassword storeDownEnv [ana] { email := some "ana@x.com" } =
      ⟨.rejected "connection lost", [ana], []⟩ := by
  decide

/-- The other eight handlers let no exception of a collaborator escape: each of
them ends in a response or in `next` with a status. -/
theorem handlers_with_try_never_reject (env : Env) (s : List User) (m : String) :
    (∀ req, (signup env s req).outcome ≠ .rejected m) ∧
    (∀ req, (login env s req).outcome ≠ .rejected m) ∧
    (logout s).outcome ≠ .rejected m ∧
    (∀ userId, (getProfile env s userId).outcome ≠ .rejected m) ∧
    (∀ req, (resetPassword env s req).outcome ≠ .rejected m) ∧
    (∀ req, (changePassword env s req).outcome ≠ .rejected m) ∧
    (∀ req, (updateProfile env s req).outcome ≠ .rejected m) ∧
    (∀ userId, (deleteProfile env s userId).outcome ≠ .rejected m) := by
  refine ⟨?_, ?_, ?_, ?_, ?_, ?_, ?_, ?_⟩
  · intro req
    simp only [signup, signupSave]
    repeat' split
    all_goals simp
  · intro req
    simp only [login]
    repeat' split
    all_goals simp
  · simp [logout]
  · intro userId
    simp only [getProfile]
    repeat' split
    all_goals simp
  · intro req
    simp only [resetPassword]
    repeat' split
    all_goals simp
  · intro req
    simp only [changePassword]
    repeat' split
    all_goals simp
  · intro req
    simp only [updateProfile, updateSave]
    repeat' split
    all_goals simp
  · intro userId
    simp only [deleteProfile]
    repeat' split
    all_goals simp

/-! ## User projections -/

theorem signup_strips_password (env : Env) (s : List User) (req : SignupReq) (status : Nat)
    (body : Body) (cookie : Option Cookie) (user : Doc)
    (h : (signup env s req).outcome = .json status body cookie) (hu : body.user = some user) :
    user.password = none := by
  revert h
  simp only [signup, signupSave]
  repeat' split
  all_goals intro h
  all_goals simp only [Outcome.json.injEq, reduceCtorEq] at h
  all_goals obtain ⟨-, rfl, -⟩ := h
  all_goals simp at hu
  all_goals subst hu
  all_goals rfl

theorem login_strips_password (env : Env) (s : List User) (req : LoginReq) (status : Nat)
    (body : Body) (cookie : Option Cookie) (user : Doc)
    (h : (login env s req).outcome = .json status body cookie) (hu : body.user = some user) :
    user.password = none := by
  revert h
  simp only [login]
  repeat' split
  all_goals intro h
  all_goals simp only [Outcome.json.injEq, reduceCtorEq] at h
  all_goals obtain ⟨-, rfl, -⟩ := h
  all_goals simp at hu
  all_goals subst hu
  all_goals rfl

theorem getProfile_forwards_record (env : Env) (s : List User) (userId : Nat) (status : Nat)
    (body : Body) (cookie : Option Cookie) (user : Doc)
    (h : (getProfile env s userId).outcome = .json status body cookie)
    (hu : body.user = some user) :
    ∃ u ∈ s, u.id = userId ∧ user = toDoc env.passwordSelected u := by
  unfold getProfile findById findOne at h
  cases h0 : env.dbFault 0 with
  | some e => simp [h0] at h
  | none =>
    cases hf : s.find? (fun u => u.id == userId) with
    | none => simp [h0, hf] at h
    | some u =>
      simp only [h0, hf, Outcome.json.injEq] at h
      obtain ⟨-, rfl, -⟩ := h
      simp only [Option.some.injEq] at hu
      refine ⟨u, List.mem_of_find?_eq_some hf, ?_, hu.symm⟩
      simpa using List.find?_some hf

/-- C8 (as stated) fails for `getProfile`: the handler forwards the record the
store returned, so with a default projection that includes the password the
response body carries the stored password hash. -/
theorem getProfile_password_counterexample :
    getProfile selectingEnv [ana] 1 =
      ⟨.json 200
          { success := true, message := "User details",
            user := some
              { id := 1, name := "Ana", email := "ana@x.com", password := some "h(secret1)",
                passwordModified := false,
                avatar := { public_id := "lms/ana", secure_url := "https://cdn/ana" },
                forgotPasswordToken := some "sha(r4nd0m)", forgotPasswordExpiry := some 1900 } }
          none,
        [ana], []⟩ := by
  decide

/-- C8 (amended): the user object in every response of `signup` and of `login`
has no password, whatever the store holds: these handlers strip it. The user
object in a response of `getProfile` is the record of the authenticated user as
the store lookup returned it, so it has no password when the default projection
of the store excludes the password, and carries the stored one otherwise. -/
theorem user_projection_password (env : Env) (s : List User) :
    (∀ req status body cookie user,
      (signup env s req).outcome = .json status body cookie → body.user = some user →
        user.password = none) ∧
    (∀ req status body cookie user,
      (login env s req).outcome = .json status body cookie → body.user = some user →
        user.password = none) ∧
    (∀ userId status body cookie user,
      (getProfile env s userId).outcome = .json status body cookie → body.user = some user →
        ∃ u ∈ s, u.id = userId ∧ user = toDoc env.passwordSelected u ∧
          (env.passwordSelected = false → user.password = none) ∧
          (env.passwordSelected = true → user.password = some u.password)) := by
  refine ⟨?_, ?_, ?_⟩
  · intro req status body cookie user h hu
    exact signup_strips_password env s req status body cookie user h hu
  · intro req status body cookie user h hu
    exact login_strips_password env s req status body cookie user h hu
  · intro userId status body cookie user h hu
    obtain ⟨u, hmem, hid, rfl⟩ :=
      getProfile_forwards_record env s userId status body cookie user h hu
    refine ⟨u, hmem, hid, rfl, ?_, ?_⟩
    · intro hsel
      simp [toDoc, hsel]
    · intro hsel
      simp [toDoc, hsel]

/-- Witness of C8 (amended): the user object of a successful `login` of `ana`
has no password, and with a store projection that excludes the password neither
has the one of `getProfile`. -/
theorem user_projection_password_witness :
    (∀ status body cookie user,
      (login hashingEnv [ana] { email := some "ana@x.com", password := some "secret1" }).outcome =
        .json status body cookie → body.user = some user → user.password = none) ∧
    (login hashingEnv [ana] { email := some "ana@x.com", password := some "secret1" }).outcome.status?
      = some 200 ∧
    (getProfile hashingEnv [ana] 1).outcome =
      .json 200
        { success := true, message := "User details",
          user := some
            { id := 1, name := "Ana", email := "ana@x.com", password := none,
              passwordModified := false,
              avatar := { public_id := "lms/ana", secure_url := "https://cdn/ana" },
              forgotPasswordToken := some "sha(r4nd0m)", forgotPasswordExpiry := some 1900 } }
        none :=
  ⟨(user_projection_password hashingEnv [ana]).2.1 _, by decide, by decide⟩

/-! ## Avatar upload -/

/-- C9 fails on the code: when the upload throws, the handler leaves the
temporary file of the request in place. `signup` ends in `next` with status 500
having performed no effect at all, and `updateProfile` (on a runtime where
`server` is bound, so that the upload is called) ends in `next` with status 500
having only deleted the old asset; neither removes the file. No record is
written in either case. -/
theorem upload_failure_leaves_file :
    signup uploadDownEnv [] { anaSignup with file := some "/tmp/upload-1" } =
      ⟨.next 500 "upload timed out", [], []⟩ ∧
    Effect.removed "/tmp/upload-1" ∉
      (signup uploadDownEnv [] { anaSignup with file := some "/tmp/upload-1" }).effects ∧
    updateProfile uploadDownServerEnv [ana]
        { userId := 1, name := some "Ana Maria", file := some "/tmp/upload-2" } =
      ⟨.next 500 "upload timed out", [ana], [.destroyed "lms/ana"]⟩ ∧
    Effect.removed "/tmp/upload-2" ∉
      (updateProfile uploadDownServerEnv [ana]
        { userId := 1, name := some "Ana Maria", file := some "/tmp/upload-2" }).effects := by
  decide

/-- A `signup` that reaches the upload (fields present, email not registered,
validation passed) with a file whose upload throws ends in `next` with status
500 and the message of the error, creates no user and performs no effect: the
temporary file is not removed. -/
theorem signup_upload_failure (env : Env) (s : List User) (req : SignupReq)
    (name email password path e : String)
    (hname : req.name = some name) (hname0 : name ≠ "")
    (hemail : req.email = some email) (hemail0 : email ≠ "")
    (hpassword : req.password = some password) (hpassword0 : password ≠ "")
    (hfree : findOne env 0 (fun v => v.email == email) s = .ok none)
    (hvalid : env.validate
      { id := freshId s, name := name, email := email, password := some password,
        passwordModified := true,
        avatar := { public_id := email, secure_url := placeholderUrl },
        forgotPasswordToken := none, forgotPasswordExpiry := none } = .ok ())
    (hfile : req.file = some path)
    (hupload : env.upload path [("resource_type", "image"), ("folder", "lms"), ("width", "250"),
      ("height", "250"), ("gravity", "faces"), ("crop", "fill")] = .error e) :
    signup env s req =
      ⟨.next 500 (orElse e "File upload failed, please try again"), s, []⟩ := by
  simp [signup, truthy?, hname, hname0, hemail, hemail0, hpassword, hpassword0, hfree,
    hvalid, hfile, hupload]

/-- An `updateProfile` of an existing user that reaches the upload (the old
asset is dealt with, `server` is bound) with a file whose upload throws ends in
`next` with status 500 and the message of the error and leaves the store, name
and avatar reference included, unchanged; its only effects are those of the
deletion of the old asset: the temporary file is not removed. -/
theorem updateProfile_upload_failure (env : Env) (s : List User) (req : UpdateProfileReq)
    (u : User) (path server e : String) (destroyed : List Effect)
    (hfind : findById env 0 req.userId s = .ok (some u))
    (hfile : req.file = some path)
    (hdestroy : destroyOld env u.avatar.public_id = .ok destroyed)
    (hbound : env.globals.lookup "server" = some server)
    (hupload : env.upload path [("resource_type", "image"), ("folder", "lms"), ("width", "250"),
      ("height", "250"), ("gravity", "faces"), ("server", server)] = .error e) :
    updateProfile env s req =
      ⟨.next 500 (orElse e "File upload failed, please try again"), s, destroyed⟩ := by
  cases hn : truthy? req.name <;>
    simp [updateProfile, hfind, hfile, hn, toDoc, hdestroy, resolveGlobal, hbound, hupload]

/-! ## Profile update -/

/-- C10 fails on the code when a file is attached: every collaborator succeeds,
yet `updateProfile` deletes the old asset and then ends in `next` with status
500, because building the upload options evaluates the unbound identifier
`server`. Neither the name nor the avatar is persisted. -/
theorem updateProfile_file_unbound_server :
    updateProfile hashingEnv [ana, bob]
        { userId := 1, name := some "Ana Maria", file := some "/tmp/upload-2" } =
      ⟨.next 500 "server is not defined", [ana, bob], [.destroyed "lms/ana"]⟩ := by
  decide

/-- With `server` unbound, no `updateProfile` of an existing user with a file
attached persists anything, whatever the asset store does. -/
theorem updateProfile_file_needs_server (env : Env) (s : List User) (req : UpdateProfileReq)
    (u : User) (path : String)
    (hfind : findById env 0 req.userId s = .ok (some u))
    (hfile : req.file = some path)
    (hunbound : env.globals.lookup "server" = none) :
    ∃ message effects, updateProfile env s req = ⟨.next 500 message, s, effects⟩ := by
  simp only [updateProfile, hfind, hfile]
  cases hd : destroyOld env
      (match truthy? req.name with
        | some name => { toDoc env.passwordSelected u with name := name }
        | none => toDoc env.passwordSelected u).avatar.public_id with
  | error e1 => exact ⟨e1, [], rfl⟩
  | ok destroyed =>
    exact ⟨orElse "server is not defined" "File upload failed, please try again", destroyed,
      by simp [resolveGlobal, hunbound]⟩

/-- Without a file, `updateProfile` of an existing user answers 200 and rewrites
the record of that user with the given name, or with the stored one when the
name is empty or absent; every other record is unchanged. -/
theorem updateProfile_name_only (env : Env) (s : List User) (req : UpdateProfileReq)
    (u : User)
    (hfind : findById env 0 req.userId s = .ok (some u))
    (hfile : req.file = none)
    (hsave : env.dbFault 1 = none) :
    updateProfile env s req =
      ⟨.json 200 { success := true, message := "Profile updated successfully", user := none } none,
        s.map (fun r => if r.id = u.id then
          { r with
            name := (truthy? req.name).getD u.name
            avatar := u.avatar
            forgotPasswordToken := u.forgotPasswordToken
            forgotPasswordExpiry := u.forgotPasswordExpiry } else r),
        []⟩ := by
  cases hn : truthy? req.name <;>
    simp [updateProfile, updateSave, hfind, hfile, hn, saveDoc_ok _ _ _ _ hsave, toDoc, writeDoc]

/-- Were `server` bound on the global object, `updateProfile` with a file whose
asset-store and file-system calls succeed would delete the old asset first,
upload, remove the temporary file, answer 200 and store the uploaded avatar and
the given name on the record of the user. -/
theorem updateProfile_file_bound_server (env : Env) (s : List User) (req : UpdateProfileReq)
    (u : User) (path server : String) (result : Avatar)
    (hfind : findById env 0 req.userId s = .ok (some u))
    (hfile : req.file = some path)
    (hold : u.avatar.public_id ≠ "")
    (hdestroy : env.destroy u.avatar.public_id = .ok ())
    (hbound : env.globals.lookup "server" = some server)
    (hupload : env.upload path [("resource_type", "image"), ("folder", "lms"), ("width", "250"),
      ("height", "250"), ("gravity", "faces"), ("server", server)] = .ok result)
    (hrm : env.rm path = .ok ())
    (hsave : env.dbFault 1 = none) :
    updateProfile env s req =
      ⟨.json 200 { success := true, message := "Profile updated successfully", user := none } none,
        s.map (fun r => if r.id = u.id then
          { r with
            name := (truthy? req.name).getD u.name
            avatar := result
            forgotPasswordToken := u.forgotPasswordToken
            forgotPasswordExpiry := u.forgotPasswordExpiry } else r),
        [.destroyed u.avatar.public_id,
         .uploaded path [("resource_type", "image"), ("folder", "lms"), ("width", "250"),
           ("height", "250"), ("gravity", "faces"), ("server", server)],
         .removed path]⟩ := by
  cases hn : truthy? req.name <;>
    simp [updateProfile, updateSave, hfind, hfile, hn, saveDoc_ok _ _ _ _ hsave, toDoc, writeDoc,
      destroyOld, hold, hdestroy, resolveGlobal, hbound, hupload, hrm]

/-- The profile update of `ana` with a file on a runtime where `server` is bound:
the old asset is deleted first, then the name and the uploaded avatar are stored. -/
theorem updateProfile_file_bound_server_example :
    updateProfile serverEnv [ana, bob]
        { userId := 1, name := some "Ana Maria", file := some "/tmp/upload-2" } =
      ⟨.json 200 { success := true, message := "Profile updated successfully", user := none } none,
        [{ ana with
            name := "Ana Maria"
            avatar := { public_id := "lms//tmp/upload-2",
                        secure_url := "https://cdn//tmp/upload-2" } }, bob],
        [.destroyed "lms/ana",
         .uploaded "/tmp/upload-2" [("resource_type", "image"), ("folder", "lms"),
           ("width", "250"), ("height", "250"), ("gravity", "faces"), ("server", "http")],
         .removed "/tmp/upload-2"]⟩ := by
  decide

end LMS
